import Mathlib

/-!
Verification of the tunnel supervisor of kprtfwd (package `k8s` in the source).

The Go code is shallowly embedded: the two maps of `PortForwarder`
(`RunningForwards : map[int]*runningInfo` and `activeLocalPorts : map[int]int`)
become association lists, Go errors become an inductive `GoError` value type,
and the effectful parts of `StartPortForward` / `StopPortForward`
(`net.Listen`, `cmd.Start()`, the stderr buffer, `Process.Kill()`) are
parameterized by an explicit `LaunchEnv` describing the outcome of each
external interaction.  Every operation additionally returns a list of `Event`s
recording the order of externally visible actions (reserve, release, spawn,
kill), which is how temporal claims (release-before-kill, fail-before-spawn)
are stated.
-/

namespace Kprtfwd

/-- Go `error` values produced by the `k8s` package: the two sentinel errors
declared at the top of the file, plain `fmt.Errorf` messages, and
`fmt.Errorf` with a `%w`-wrapped inner error. -/
inductive GoError where
  | ErrPortInUse : GoError
  | ErrLocalPortReserved : GoError
  | errorf (msg : String) : GoError
  | wrapped (msg : String) (inner : GoError) : GoError
deriving DecidableEq

/-- Model of Go `strings.TrimSpace`: drop whitespace from both ends. -/
def trimSpace (s : String) : String :=
  String.mk (((s.data.dropWhile Char.isWhitespace).reverse.dropWhile Char.isWhitespace).reverse)

/-- `config.PortForwardConfig` (pkg/config/types.go), status-free fields. -/
structure PortForwardConfig where
  ID : String
  Context : String
  Namespace : String
  Service : String
  PortRemote : Int
  PortLocal : Int
deriving DecidableEq

/-- `k8s.PortForwardParams`. -/
structure PortForwardParams where
  Context : String
  Namespace : String
  Service : String
  PortRemote : Int
  PortLocal : Int
deriving DecidableEq

/-- Model of an `*exec.Cmd` handle as far as the supervisor observes it:
its PID, whether its `Process` field is nil, and what `Process.Kill()`
returns when invoked on it. -/
structure Cmd where
  pid : Int
  processNil : Bool
  killErr : Option GoError
deriving DecidableEq

/-- Externally visible actions, in the order they are performed. -/
inductive Event where
  | reserve (port : Int) (idx : Nat) : Event
  | release (port : Int) (idx : Nat) : Event
  | spawn (pid : Int) : Event
  | kill (pid : Int) : Event
deriving DecidableEq

/-- Outcome of the external world for one launch attempt: the result of
`net.Listen` per port (`none` means the listen succeeded), the result of
`cmd.Start()`, the contents of the stderr buffer at each of the three points
the code reads it, whether `cmd.ProcessState` is non-nil right after a
successful start, the PID of the spawned process and the result a later
`Process.Kill()` would return. -/
structure LaunchEnv where
  listenErr : Int → Option String
  startErr : Option GoError
  stderrOnStartErr : String
  exitedQuickly : Bool
  stderrOnExit : String
  stderrEarly : String
  pid : Int
  killErr : Option GoError

/-- `k8s.isPortAvailable`: try to listen on 127.0.0.1:port.  Any error —
whether or not its text mentions the bind — makes the function return false
(both branches of the source return false); on success the listener is
closed and the port is reported available. -/
def isPortAvailable (listenErr : Int → Option String) (port : Int) : Bool :=
  match listenErr port with
  | some _ => false
  | none => true

/-- `k8s.StopPortForward`: nil command or nil process field is a no-op
returning nil; otherwise the result of `Process.Kill()` is returned and a
kill event is emitted. -/
def StopPortForward (cmd : Option Cmd) : Option GoError × List Event :=
  match cmd with
  | none => (none, [])
  | some c => if c.processNil then (none, []) else (c.killErr, [Event.kill c.pid])

/-- `k8s.StartPortForward`: pre-check the local port with `isPortAvailable`
(fail with the `ErrPortInUse` sentinel before any spawn); spawn kubectl; on a
`cmd.Start()` error return a wrapped "kubectl start failed" error; if the
process already exited return the formatted "kubectl exited quickly" error
with the captured stderr; if stderr output already appeared, kill the process
and return the trimmed stderr text as a plain error; otherwise return the
live handle. -/
def StartPortForward (env : LaunchEnv) (params : PortForwardParams) :
    Except GoError Cmd × List Event :=
  if isPortAvailable env.listenErr params.PortLocal = false then
    (Except.error GoError.ErrPortInUse, [])
  else
    match env.startErr with
    | some e =>
      if env.stderrOnStartErr ≠ "" then
        (Except.error (GoError.wrapped ("kubectl start failed (stderr: " ++ env.stderrOnStartErr ++ ")") e),
         [Event.spawn env.pid])
      else
        (Except.error (GoError.wrapped ("kubectl start failed") e), [Event.spawn env.pid])
    | none =>
      if env.exitedQuickly then
        (Except.error (GoError.errorf ("kubectl exited quickly. Stderr: " ++ env.stderrOnExit)),
         [Event.spawn env.pid])
      else if env.stderrEarly ≠ "" then
        (Except.error (GoError.errorf (trimSpace env.stderrEarly)),
         Event.spawn env.pid :: (StopPortForward (some { pid := env.pid, processNil := false, killErr := env.killErr })).2)
      else
        (Except.ok { pid := env.pid, processNil := false, killErr := env.killErr },
         [Event.spawn env.pid])

/-- `k8s.runningInfo`: the command handle and the local port it occupies. -/
structure runningInfo where
  cmd : Cmd
  localPort : Int
deriving DecidableEq

/-- Decidable equality for launch results. -/
instance instDecEqExcept {ε α : Type} [DecidableEq ε] [DecidableEq α] :
    DecidableEq (Except ε α)
  | Except.error e, Except.error f =>
    if h : e = f then isTrue (by rw [h]) else isFalse (fun hc => h (by injection hc))
  | Except.error _, Except.ok _ => isFalse (fun hc => Except.noConfusion hc)
  | Except.ok _, Except.error _ => isFalse (fun hc => Except.noConfusion hc)
  | Except.ok a, Except.ok b =>
    if h : a = b then isTrue (by rw [h]) else isFalse (fun hc => h (by injection hc))

/-- Association-list lookup, modelling Go map indexing `m[k]`. -/
def lookupA {α β : Type} [DecidableEq α] (k : α) : List (α × β) → Option β
  | [] => none
  | p :: rest => if p.1 = k then some p.2 else lookupA k rest

/-- Association-list removal, modelling Go `delete(m, k)`. -/
def eraseA {α β : Type} [DecidableEq α] (k : α) (l : List (α × β)) : List (α × β) :=
  l.filter (fun p => decide (p.1 ≠ k))

/-- Association-list update, modelling Go map assignment `m[k] = v`. -/
def insertA {α β : Type} [DecidableEq α] (k : α) (v : β) (l : List (α × β)) :
    List (α × β) :=
  (k, v) :: eraseA k l

/-- `k8s.PortForwarder`: map of config index to running info, and map of
active local port to the config index holding its reservation.  (The mutex is
not modelled; operations are the lock-serialized atomic steps.) -/
structure PortForwarder where
  RunningForwards : List (Nat × runningInfo)
  activeLocalPorts : List (Int × Nat)
deriving DecidableEq

/-- `k8s.NewPortForwarder`: both maps start empty. -/
def NewPortForwarder : PortForwarder :=
  { RunningForwards := [], activeLocalPorts := [] }

/-- The `PortForwardParams` literal built from a config inside `Start`. -/
def paramsOf (cfg : PortForwardConfig) : PortForwardParams :=
  { Context := cfg.Context, Namespace := cfg.Namespace, Service := cfg.Service,
    PortRemote := cfg.PortRemote, PortLocal := cfg.PortLocal }

/-- `(*PortForwarder).Start`: no-op success when the index is already in
`RunningForwards`; `ErrLocalPortReserved` when the local port is already in
`activeLocalPorts`; otherwise reserve the port, call `StartPortForward`, and
on failure release the reservation (only if still held by this index) and
return the launch error unchanged, on success record the running info. -/
def PortForwarder.Start (pf : PortForwarder) (index : Nat) (cfg : PortForwardConfig)
    (env : LaunchEnv) : PortForwarder × Option GoError × List Event :=
  match lookupA index pf.RunningForwards with
  | some _ => (pf, none, [])
  | none =>
    match lookupA cfg.PortLocal pf.activeLocalPorts with
    | some _ => (pf, some GoError.ErrLocalPortReserved, [])
    | none =>
      match (StartPortForward env (paramsOf cfg)).1 with
      | Except.error e =>
        match lookupA cfg.PortLocal (insertA cfg.PortLocal index pf.activeLocalPorts) with
        | some holder =>
          if holder = index then
            ({ pf with activeLocalPorts :=
                 eraseA cfg.PortLocal (insertA cfg.PortLocal index pf.activeLocalPorts) },
             some e,
             Event.reserve cfg.PortLocal index ::
               (StartPortForward env (paramsOf cfg)).2 ++ [Event.release cfg.PortLocal index])
          else
            ({ pf with activeLocalPorts := insertA cfg.PortLocal index pf.activeLocalPorts },
             some e,
             Event.reserve cfg.PortLocal index :: (StartPortForward env (paramsOf cfg)).2)
        | none =>
          ({ pf with activeLocalPorts := insertA cfg.PortLocal index pf.activeLocalPorts },
           some e,
           Event.reserve cfg.PortLocal index :: (StartPortForward env (paramsOf cfg)).2)
      | Except.ok cmd =>
        ({ RunningForwards :=
             insertA index { cmd := cmd, localPort := cfg.PortLocal } pf.RunningForwards,
           activeLocalPorts := insertA cfg.PortLocal index pf.activeLocalPorts },
         none,
         Event.reserve cfg.PortLocal index :: (StartPortForward env (paramsOf cfg)).2)

/-- `(*PortForwarder).Stop`: no-op success when the index is not running;
otherwise release the port reservation first (only if held by this index),
then kill the process, remove the index from `RunningForwards` regardless of
the kill outcome, and return the kill error. -/
def PortForwarder.Stop (pf : PortForwarder) (index : Nat) :
    PortForwarder × Option GoError × List Event :=
  match lookupA index pf.RunningForwards with
  | none => (pf, none, [])
  | some ri =>
    match lookupA ri.localPort pf.activeLocalPorts with
    | some holder =>
      if holder = index then
        ({ RunningForwards := eraseA index pf.RunningForwards,
           activeLocalPorts := eraseA ri.localPort pf.activeLocalPorts },
         (StopPortForward (some ri.cmd)).1,
         Event.release ri.localPort index :: (StopPortForward (some ri.cmd)).2)
      else
        ({ pf with RunningForwards := eraseA index pf.RunningForwards },
         (StopPortForward (some ri.cmd)).1,
         (StopPortForward (some ri.cmd)).2)
    | none =>
      ({ pf with RunningForwards := eraseA index pf.RunningForwards },
       (StopPortForward (some ri.cmd)).1,
       (StopPortForward (some ri.cmd)).2)

/-- `(*PortForwarder).stopInternal`: like `Stop` but assuming the lock is
held; releases the reservation only when held by this index, kills, and
removes the index from the running map regardless. -/
def PortForwarder.stopInternal (pf : PortForwarder) (index : Nat) :
    PortForwarder × Option GoError × List Event :=
  match lookupA index pf.RunningForwards with
  | none => (pf, none, [])
  | some ri =>
    match lookupA ri.localPort pf.activeLocalPorts with
    | some holder =>
      if holder = index then
        ({ RunningForwards := eraseA index pf.RunningForwards,
           activeLocalPorts := eraseA ri.localPort pf.activeLocalPorts },
         (StopPortForward (some ri.cmd)).1,
         (StopPortForward (some ri.cmd)).2)
      else
        ({ pf with RunningForwards := eraseA index pf.RunningForwards },
         (StopPortForward (some ri.cmd)).1,
         (StopPortForward (some ri.cmd)).2)
    | none =>
      ({ pf with RunningForwards := eraseA index pf.RunningForwards },
       (StopPortForward (some ri.cmd)).1,
       (StopPortForward (some ri.cmd)).2)

/-- `(*PortForwarder).IsRunning`: membership in the running map. -/
def PortForwarder.IsRunning (pf : PortForwarder) (index : Nat) : Bool :=
  (lookupA index pf.RunningForwards).isSome

/-- `(*PortForwarder).CleanupAll`: call `stopInternal` on every running index
(ignoring the individual errors), then reset both maps to empty. -/
def PortForwarder.CleanupAll (pf : PortForwarder) : PortForwarder × List Event :=
  let folded := (pf.RunningForwards.map Prod.fst).foldl
    (fun acc idx => ((acc.1.stopInternal idx).1, acc.2 ++ (acc.1.stopInternal idx).2.2))
    (pf, ([] : List Event))
  ({ RunningForwards := [], activeLocalPorts := [] }, folded.2)

/-- `k8s.ReloadResult`. -/
structure ReloadResult where
  Stopped : List Nat
  Started : List Nat
  Updated : List Nat
  Errors : List (Nat × GoError)
deriving DecidableEq

/-- `k8s.configParamsChanged`: true when any of the six core fields differ. -/
def configParamsChanged (oldCfg newCfg : PortForwardConfig) : Bool :=
  (oldCfg.Context != newCfg.Context) ||
  (oldCfg.Namespace != newCfg.Namespace) ||
  (oldCfg.Service != newCfg.Service) ||
  (oldCfg.PortRemote != newCfg.PortRemote) ||
  (oldCfg.PortLocal != newCfg.PortLocal) ||
  (oldCfg.ID != newCfg.ID)

/-- The body of the positional loop of `(*PortForwarder).ReloadSync` at one
index: both present with changed parameters stops the running forward (error
goes to `Errors`, success to `Stopped`) and always records `Updated`; both
present unchanged does nothing; only old present stops the running forward;
only new present does nothing. -/
def reloadStep (pf : PortForwarder) (res : ReloadResult)
    (oldCfg? newCfg? : Option PortForwardConfig) (i : Nat) :
    PortForwarder × ReloadResult :=
  match oldCfg?, newCfg? with
  | some oldCfg, some newCfg =>
    if configParamsChanged oldCfg newCfg then
      if (lookupA i pf.RunningForwards).isSome then
        match (pf.stopInternal i).2.1 with
        | some e =>
          ((pf.stopInternal i).1,
           { res with
               Errors := insertA i (GoError.wrapped ("failed to stop changed config") e) res.Errors,
               Updated := res.Updated ++ [i] })
        | none =>
          ((pf.stopInternal i).1,
           { res with Stopped := res.Stopped ++ [i], Updated := res.Updated ++ [i] })
      else
        (pf, { res with Updated := res.Updated ++ [i] })
    else
      (pf, res)
  | some _, none =>
    if (lookupA i pf.RunningForwards).isSome then
      match (pf.stopInternal i).2.1 with
      | some e =>
        ((pf.stopInternal i).1,
         { res with
             Errors := insertA i (GoError.wrapped ("failed to stop removed config") e) res.Errors })
      | none =>
        ((pf.stopInternal i).1, { res with Stopped := res.Stopped ++ [i] })
    else
      (pf, res)
  | none, some _ => (pf, res)
  | none, none => (pf, res)

/-- `(*PortForwarder).ReloadSync`: walk positions 0 up to the length of the
longer list, applying `reloadStep` with the configs at that position of each
list.  The Go function always returns a nil error alongside the result. -/
def PortForwarder.ReloadSync (pf : PortForwarder)
    (oldConfigs newConfigs : List PortForwardConfig) :
    PortForwarder × ReloadResult :=
  (List.range (max oldConfigs.length newConfigs.length)).foldl
    (fun acc i => reloadStep acc.1 acc.2 (oldConfigs.get? i) (newConfigs.get? i) i)
    (pf, { Stopped := [], Started := [], Updated := [], Errors := [] })

/-- Supervisor bookkeeping invariant: every running index holds the
reservation for its own local port. -/
def Inv (pf : PortForwarder) : Prop :=
  ∀ idx ri, lookupA idx pf.RunningForwards = some ri →
    lookupA ri.localPort pf.activeLocalPorts = some idx

/-- States reachable from a fresh supervisor through the exported
operations. -/
inductive Reachable : PortForwarder → Prop where
  | init : Reachable NewPortForwarder
  | start (pf : PortForwarder) (idx : Nat) (cfg : PortForwardConfig) (env : LaunchEnv) :
      Reachable pf → Reachable (pf.Start idx cfg env).1
  | stop (pf : PortForwarder) (idx : Nat) :
      Reachable pf → Reachable (pf.Stop idx).1
  | cleanup (pf : PortForwarder) :
      Reachable pf → Reachable pf.CleanupAll.1
  | reload (pf : PortForwarder) (oldC newC : List PortForwardConfig) :
      Reachable pf → Reachable (pf.ReloadSync oldC newC).1

/-- Concrete config used to exercise the theorems. -/
def cfgA : PortForwardConfig :=
  { ID := "a", Context := "ctx", Namespace := "ns", Service := "svc",
    PortRemote := 80, PortLocal := 8080 }

/-- Concrete config on a second local port. -/
def cfgB : PortForwardConfig :=
  { ID := "b", Context := "ctx", Namespace := "ns", Service := "svc2",
    PortRemote := 81, PortLocal := 9090 }

/-- Concrete config that conflicts with `cfgA` on the local port. -/
def cfgBsame : PortForwardConfig :=
  { ID := "b", Context := "ctx", Namespace := "ns", Service := "svc2",
    PortRemote := 81, PortLocal := 8080 }

/-- `cfgA` with its service edited (a parameter change). -/
def cfgAsvc2 : PortForwardConfig :=
  { ID := "a", Context := "ctx", Namespace := "ns", Service := "svc2",
    PortRemote := 80, PortLocal := 8080 }

/-- Environment in which the launch succeeds cleanly. -/
def envOK : LaunchEnv :=
  { listenErr := fun _ => none, startErr := none, stderrOnStartErr := "",
    exitedQuickly := false, stderrOnExit := "", stderrEarly := "",
    pid := 7, killErr := none }

/-- Clean-launch environment with a different PID. -/
def envOK2 : LaunchEnv := { envOK with pid := 8 }

/-- Environment in which the loopback listen fails. -/
def envListenFail : LaunchEnv :=
  { envOK with listenErr := fun _ => some ("address already in use") }

/-- Environment in which the process exits immediately after a clean spawn. -/
def envExitQuick : LaunchEnv := { envOK with exitedQuickly := true, stderrOnExit := "x" }

/-- Environment in which early stderr output appears; its text is chosen to
coincide with the exited-quickly error message of `envExitQuick`. -/
def envEarlyStderr : LaunchEnv :=
  { envOK with stderrEarly := "kubectl exited quickly. Stderr: x" }

/-- Environment in which the spawn call itself fails. -/
def envSpawnFail : LaunchEnv :=
  { envOK with startErr := some (GoError.errorf ("exec failure")) }

/-- Running info recorded by a successful start under `envOK` on port 8080. -/
def riA : runningInfo :=
  { cmd := { pid := 7, processNil := false, killErr := none }, localPort := 8080 }

/-- Running info recorded by a successful start under `envOK2` on port 9090. -/
def riB : runningInfo :=
  { cmd := { pid := 8, processNil := false, killErr := none }, localPort := 9090 }

/-- Running info whose process refuses to die: `Process.Kill()` errors. -/
def riKill : runningInfo :=
  { cmd := { pid := 9, processNil := false, killErr := some (GoError.errorf ("kill failed")) },
    localPort := 8080 }

/-- Supervisor state after one successful start of `cfgA` at slot 0. -/
def pfOne : PortForwarder := (NewPortForwarder.Start 0 cfgA envOK).1

/-- Supervisor state after successful starts of `cfgA` at slot 0 and `cfgB`
at slot 1. -/
def pfTwo : PortForwarder := (pfOne.Start 1 cfgB envOK2).1

/-- Supervisor state with one running slot whose kill will fail. -/
def pfKill : PortForwarder :=
  { RunningForwards := [(0, riKill)], activeLocalPorts := [(8080, 0)] }

/-- The empty reconciliation result `ReloadSync` starts from. -/
def emptyReload : ReloadResult :=
  { Stopped := [], Started := [], Updated := [], Errors := [] }

theorem lookupA_cons {α β : Type} [DecidableEq α] (k : α) (p : α × β) (l : List (α × β)) :
    lookupA k (p :: l) = if p.1 = k then some p.2 else lookupA k l := rfl

theorem eraseA_cons {α β : Type} [DecidableEq α] (k : α) (p : α × β) (l : List (α × β)) :
    eraseA k (p :: l) = if p.1 = k then eraseA k l else p :: eraseA k l := by
  by_cases h : p.1 = k <;> simp [eraseA, List.filter_cons, h]

theorem lookupA_eraseA_self {α β : Type} [DecidableEq α] (k : α) (l : List (α × β)) :
    lookupA k (eraseA k l) = none := by
  induction l with
  | nil => rfl
  | cons p rest ih =>
    rw [eraseA_cons]
    by_cases h : p.1 = k
    · rw [if_pos h]; exact ih
    · rw [if_neg h, lookupA_cons, if_neg h]; exact ih

theorem lookupA_eraseA_ne {α β : Type} [DecidableEq α] {k k2 : α} (h : k ≠ k2)
    (l : List (α × β)) : lookupA k2 (eraseA k l) = lookupA k2 l := by
  induction l with
  | nil => rfl
  | cons p rest ih =>
    rw [eraseA_cons]
    by_cases hp : p.1 = k
    · have hne : p.1 ≠ k2 := by rw [hp]; exact h
      rw [if_pos hp, lookupA_cons, if_neg hne]; exact ih
    · rw [if_neg hp, lookupA_cons, lookupA_cons]
      by_cases hq : p.1 = k2
      · rw [if_pos hq, if_pos hq]
      · rw [if_neg hq, if_neg hq]; exact ih

theorem eraseA_of_lookupA_none {α β : Type} [DecidableEq α] {k : α} {l : List (α × β)}
    (h : lookupA k l = none) : eraseA k l = l := by
  induction l with
  | nil => rfl
  | cons p rest ih =>
    rw [lookupA_cons] at h
    by_cases hp : p.1 = k
    · rw [if_pos hp] at h; cases h
    · rw [if_neg hp] at h
      rw [eraseA_cons, if_neg hp, ih h]

theorem lookupA_insertA_self {α β : Type} [DecidableEq α] (k : α) (v : β)
    (l : List (α × β)) : lookupA k (insertA k v l) = some v := by
  rw [insertA, lookupA_cons, if_pos rfl]

theorem lookupA_insertA_ne {α β : Type} [DecidableEq α] {k k2 : α} (h : k ≠ k2)
    (v : β) (l : List (α × β)) : lookupA k2 (insertA k v l) = lookupA k2 l := by
  rw [insertA, lookupA_cons, if_neg h, lookupA_eraseA_ne h]

theorem eraseA_insertA_of_none {α β : Type} [DecidableEq α] {k : α} {l : List (α × β)}
    (v : β) (h : lookupA k l = none) : eraseA k (insertA k v l) = l := by
  rw [insertA, eraseA_cons, if_pos rfl, eraseA_of_lookupA_none h,
    eraseA_of_lookupA_none h]

theorem Start_already_running {pf : PortForwarder} {index : Nat} {ri : runningInfo}
    (cfg : PortForwardConfig) (env : LaunchEnv)
    (h : lookupA index pf.RunningForwards = some ri) :
    pf.Start index cfg env = (pf, none, []) := by
  unfold PortForwarder.Start; rw [h]

theorem Start_reserved {pf : PortForwarder} {index j : Nat} {cfg : PortForwardConfig}
    (env : LaunchEnv)
    (h1 : lookupA index pf.RunningForwards = none)
    (h2 : lookupA cfg.PortLocal pf.activeLocalPorts = some j) :
    pf.Start index cfg env = (pf, some GoError.ErrLocalPortReserved, []) := by
  unfold PortForwarder.Start; rw [h1, h2]

theorem Start_launch_error {pf : PortForwarder} {index : Nat} {cfg : PortForwardConfig}
    {env : LaunchEnv} {e : GoError}
    (h1 : lookupA index pf.RunningForwards = none)
    (h2 : lookupA cfg.PortLocal pf.activeLocalPorts = none)
    (hL : (StartPortForward env (paramsOf cfg)).1 = Except.error e) :
    pf.Start index cfg env =
      (pf, some e,
       Event.reserve cfg.PortLocal index ::
         (StartPortForward env (paramsOf cfg)).2 ++ [Event.release cfg.PortLocal index]) := by
  unfold PortForwarder.Start
  simp [h1, h2, hL, lookupA_insertA_self, eraseA_insertA_of_none index h2]

theorem Start_launch_ok {pf : PortForwarder} {index : Nat} {cfg : PortForwardConfig}
    {env : LaunchEnv} {cmd : Cmd}
    (h1 : lookupA index pf.RunningForwards = none)
    (h2 : lookupA cfg.PortLocal pf.activeLocalPorts = none)
    (hL : (StartPortForward env (paramsOf cfg)).1 = Except.ok cmd) :
    pf.Start index cfg env =
      ({ RunningForwards :=
           insertA index { cmd := cmd, localPort := cfg.PortLocal } pf.RunningForwards,
         activeLocalPorts := insertA cfg.PortLocal index pf.activeLocalPorts },
       none,
       Event.reserve cfg.PortLocal index :: (StartPortForward env (paramsOf cfg)).2) := by
  unfold PortForwarder.Start; rw [h1, h2, hL]

theorem Stop_not_running {pf : PortForwarder} {index : Nat}
    (h : lookupA index pf.RunningForwards = none) :
    pf.Stop index = (pf, none, []) := by
  unfold PortForwarder.Stop; rw [h]

theorem Stop_running_held {pf : PortForwarder} {index : Nat} {ri : runningInfo}
    (h : lookupA index pf.RunningForwards = some ri)
    (h2 : lookupA ri.localPort pf.activeLocalPorts = some index) :
    pf.Stop index =
      ({ RunningForwards := eraseA index pf.RunningForwards,
         activeLocalPorts := eraseA ri.localPort pf.activeLocalPorts },
       (StopPortForward (some ri.cmd)).1,
       Event.release ri.localPort index :: (StopPortForward (some ri.cmd)).2) := by
  unfold PortForwarder.Stop; simp [h, h2]

theorem Stop_running_other {pf : PortForwarder} {index j : Nat} {ri : runningInfo}
    (h : lookupA index pf.RunningForwards = some ri)
    (h2 : lookupA ri.localPort pf.activeLocalPorts = some j) (hj : j ≠ index) :
    pf.Stop index =
      ({ pf with RunningForwards := eraseA index pf.RunningForwards },
       (StopPortForward (some ri.cmd)).1, (StopPortForward (some ri.cmd)).2) := by
  unfold PortForwarder.Stop; simp [h, h2, hj]

theorem Stop_running_unheld {pf : PortForwarder} {index : Nat} {ri : runningInfo}
    (h : lookupA index pf.RunningForwards = some ri)
    (h2 : lookupA ri.localPort pf.activeLocalPorts = none) :
    pf.Stop index =
      ({ pf with RunningForwards := eraseA index pf.RunningForwards },
       (StopPortForward (some ri.cmd)).1, (StopPortForward (some ri.cmd)).2) := by
  unfold PortForwarder.Stop; simp [h, h2]

theorem stopInternal_not_running {pf : PortForwarder} {index : Nat}
    (h : lookupA index pf.RunningForwards = none) :
    pf.stopInternal index = (pf, none, []) := by
  unfold PortForwarder.stopInternal; rw [h]

theorem stopInternal_running_held {pf : PortForwarder} {index : Nat} {ri : runningInfo}
    (h : lookupA index pf.RunningForwards = some ri)
    (h2 : lookupA ri.localPort pf.activeLocalPorts = some index) :
    pf.stopInternal index =
      ({ RunningForwards := eraseA index pf.RunningForwards,
         activeLocalPorts := eraseA ri.localPort pf.activeLocalPorts },
       (StopPortForward (some ri.cmd)).1, (StopPortForward (some ri.cmd)).2) := by
  unfold PortForwarder.stopInternal; simp [h, h2]

theorem stopInternal_running_other {pf : PortForwarder} {index j : Nat} {ri : runningInfo}
    (h : lookupA index pf.RunningForwards = some ri)
    (h2 : lookupA ri.localPort pf.activeLocalPorts = some j) (hj : j ≠ index) :
    pf.stopInternal index =
      ({ pf with RunningForwards := eraseA index pf.RunningForwards },
       (StopPortForward (some ri.cmd)).1, (StopPortForward (some ri.cmd)).2) := by
  unfold PortForwarder.stopInternal; simp [h, h2, hj]

theorem stopInternal_running_unheld {pf : PortForwarder} {index : Nat} {ri : runningInfo}
    (h : lookupA index pf.RunningForwards = some ri)
    (h2 : lookupA ri.localPort pf.activeLocalPorts = none) :
    pf.stopInternal index =
      ({ pf with RunningForwards := eraseA index pf.RunningForwards },
       (StopPortForward (some ri.cmd)).1, (StopPortForward (some ri.cmd)).2) := by
  unfold PortForwarder.stopInternal; simp [h, h2]

theorem CleanupAll_state (pf : PortForwarder) : pf.CleanupAll.1 = NewPortForwarder := rfl

theorem inv_empty : Inv NewPortForwarder := by
  intro idx ri h
  cases h

theorem Inv.start {pf : PortForwarder} (h : Inv pf) (idx : Nat)
    (cfg : PortForwardConfig) (env : LaunchEnv) : Inv (pf.Start idx cfg env).1 := by
  cases hr : lookupA idx pf.RunningForwards with
  | some ri => rw [Start_already_running cfg env hr]; exact h
  | none =>
    cases ha : lookupA cfg.PortLocal pf.activeLocalPorts with
    | some j => rw [Start_reserved env hr ha]; exact h
    | none =>
      cases hL : (StartPortForward env (paramsOf cfg)).1 with
      | error e => rw [Start_launch_error hr ha hL]; exact h
      | ok cmd =>
        rw [Start_launch_ok hr ha hL]
        intro j rj hj
        by_cases hji : j = idx
        · subst hji
          rw [lookupA_insertA_self] at hj
          have hr2 : rj = { cmd := cmd, localPort := cfg.PortLocal } := by
            injection hj with hj2; exact hj2.symm
          subst hr2
          exact lookupA_insertA_self _ _ _
        · have hj' : lookupA j pf.RunningForwards = some rj := by
            rwa [lookupA_insertA_ne (fun he => hji he.symm)] at hj
          have hport := h j rj hj'
          have hpne : cfg.PortLocal ≠ rj.localPort := by
            intro he
            rw [← he, ha] at hport
            cases hport
          rw [lookupA_insertA_ne hpne]
          exact hport

theorem Inv.stop {pf : PortForwarder} (h : Inv pf) (idx : Nat) :
    Inv (pf.Stop idx).1 := by
  cases hr : lookupA idx pf.RunningForwards with
  | none => rw [Stop_not_running hr]; exact h
  | some ri =>
    cases ha : lookupA ri.localPort pf.activeLocalPorts with
    | some holder =>
      by_cases hh : holder = idx
      · rw [hh] at ha
        rw [Stop_running_held hr ha]
        intro j rj hj
        have hne : j ≠ idx := by
          intro he; subst he
          rw [lookupA_eraseA_self] at hj; cases hj
        have hj' : lookupA j pf.RunningForwards = some rj := by
          rwa [lookupA_eraseA_ne (fun he => hne he.symm)] at hj
        have hport := h j rj hj'
        have hpne : ri.localPort ≠ rj.localPort := by
          intro he
          rw [← he, ha] at hport
          injection hport with hport2
          exact hne hport2.symm
        rw [lookupA_eraseA_ne hpne]
        exact hport
      · rw [Stop_running_other hr ha hh]
        intro j rj hj
        have hne : j ≠ idx := by
          intro he; subst he
          rw [lookupA_eraseA_self] at hj; cases hj
        have hj' : lookupA j pf.RunningForwards = some rj := by
          rwa [lookupA_eraseA_ne (fun he => hne he.symm)] at hj
        exact h j rj hj'
    | none =>
      rw [Stop_running_unheld hr ha]
      intro j rj hj
      have hne : j ≠ idx := by
        intro he; subst he
        rw [lookupA_eraseA_self] at hj; cases hj
      have hj' : lookupA j pf.RunningForwards = some rj := by
        rwa [lookupA_eraseA_ne (fun he => hne he.symm)] at hj
      exact h j rj hj'

theorem Inv.stopInternal {pf : PortForwarder} (h : Inv pf) (idx : Nat) :
    Inv (pf.stopInternal idx).1 := by
  cases hr : lookupA idx pf.RunningForwards with
  | none => rw [stopInternal_not_running hr]; exact h
  | some ri =>
    cases ha : lookupA ri.localPort pf.activeLocalPorts with
    | some holder =>
      by_cases hh : holder = idx
      · rw [hh] at ha
        rw [stopInternal_running_held hr ha]
        intro j rj hj
        have hne : j ≠ idx := by
          intro he; subst he
          rw [lookupA_eraseA_self] at hj; cases hj
        have hj' : lookupA j pf.RunningForwards = some rj := by
          rwa [lookupA_eraseA_ne (fun he => hne he.symm)] at hj
        have hport := h j rj hj'
        have hpne : ri.localPort ≠ rj.localPort := by
          intro he
          rw [← he, ha] at hport
          injection hport with hport2
          exact hne hport2.symm
        rw [lookupA_eraseA_ne hpne]
        exact hport
      · rw [stopInternal_running_other hr ha hh]
        intro j rj hj
        have hne : j ≠ idx := by
          intro he; subst he
          rw [lookupA_eraseA_self] at hj; cases hj
        have hj' : lookupA j pf.RunningForwards = some rj := by
          rwa [lookupA_eraseA_ne (fun he => hne he.symm)] at hj
        exact h j rj hj'
    | none =>
      rw [stopInternal_running_unheld hr ha]
      intro j rj hj
      have hne : j ≠ idx := by
        intro he; subst he
        rw [lookupA_eraseA_self] at hj; cases hj
      have hj' : lookupA j pf.RunningForwards = some rj := by
        rwa [lookupA_eraseA_ne (fun he => hne he.symm)] at hj
      exact h j rj hj'

theorem reloadStep_state (pf : PortForwarder) (res : ReloadResult)
    (oldCfg? newCfg? : Option PortForwardConfig) (i : Nat) :
    (reloadStep pf res oldCfg? newCfg? i).1 = pf ∨
      (reloadStep pf res oldCfg? newCfg? i).1 = (pf.stopInternal i).1 := by
  rcases oldCfg? with _ | o <;> rcases newCfg? with _ | n
  · left; rfl
  · left; rfl
  · by_cases hrun : (lookupA i pf.RunningForwards).isSome
    · rcases hs : (pf.stopInternal i).2.1 with _ | e
      · right; simp [reloadStep, hrun, hs]
      · right; simp [reloadStep, hrun, hs]
    · left; simp [reloadStep, hrun]
  · by_cases hch : configParamsChanged o n
    · by_cases hrun : (lookupA i pf.RunningForwards).isSome
      · rcases hs : (pf.stopInternal i).2.1 with _ | e
        · right; simp [reloadStep, hch, hrun, hs]
        · right; simp [reloadStep, hch, hrun, hs]
      · left; simp [reloadStep, hch, hrun]
    · left; simp [reloadStep, hch]

theorem inv_reloadStep {pf : PortForwarder} (h : Inv pf) (res : ReloadResult)
    (oldCfg? newCfg? : Option PortForwardConfig) (i : Nat) :
    Inv (Kprtfwd.reloadStep pf res oldCfg? newCfg? i).1 := by
  rcases reloadStep_state pf res oldCfg? newCfg? i with hs | hs
  · rw [hs]; exact h
  · rw [hs]; exact h.stopInternal i

theorem inv_reloadFold (oldC newC : List PortForwardConfig) :
    ∀ (l : List Nat) (acc : PortForwarder × ReloadResult), Inv acc.1 →
      Inv ((l.foldl
        (fun acc i => reloadStep acc.1 acc.2 (oldC.get? i) (newC.get? i) i) acc).1) := by
  intro l
  induction l with
  | nil => intro acc h; exact h
  | cons x xs ih =>
    intro acc h
    rw [List.foldl_cons]
    exact ih _ (inv_reloadStep h acc.2 (oldC.get? x) (newC.get? x) x)

theorem inv_reloadSync {pf : PortForwarder} (h : Inv pf)
    (oldC newC : List PortForwardConfig) : Inv (pf.ReloadSync oldC newC).1 := by
  unfold PortForwarder.ReloadSync
  exact inv_reloadFold oldC newC _ _ h

theorem inv_cleanupAll (pf : PortForwarder) : Inv pf.CleanupAll.1 := by
  rw [CleanupAll_state]; exact inv_empty

theorem reachable_inv {pf : PortForwarder} (h : Reachable pf) : Inv pf := by
  induction h with
  | init => exact inv_empty
  | start pf idx cfg env _ ih => exact ih.start idx cfg env
  | stop pf idx _ ih => exact ih.stop idx
  | cleanup pf _ _ => exact inv_cleanupAll pf
  | reload pf oldC newC _ ih => exact inv_reloadSync ih oldC newC

theorem configParamsChanged_self (c : PortForwardConfig) :
    configParamsChanged c c = false := by
  simp [configParamsChanged]

theorem stopInternal_IsRunning (pf : PortForwarder) (i : Nat) :
    (pf.stopInternal i).1.IsRunning i = false := by
  cases hr : lookupA i pf.RunningForwards with
  | none =>
    rw [stopInternal_not_running hr]
    simp [PortForwarder.IsRunning, hr]
  | some ri =>
    cases ha : lookupA ri.localPort pf.activeLocalPorts with
    | some holder =>
      by_cases hh : holder = i
      · rw [hh] at ha
        rw [stopInternal_running_held hr ha]
        simp [PortForwarder.IsRunning, lookupA_eraseA_self]
      · rw [stopInternal_running_other hr ha hh]
        simp [PortForwarder.IsRunning, lookupA_eraseA_self]
    | none =>
      rw [stopInternal_running_unheld hr ha]
      simp [PortForwarder.IsRunning, lookupA_eraseA_self]

/-- Claim C1: for distinct slots with the same configured local port, at most
one is running at any time in any reachable supervisor state (two running
slots always occupy different local ports); and calling `Start` for a second
slot while another slot holds that port's reservation fails with the
`ErrLocalPortReserved` sentinel, leaves the second slot not running, and
leaves both the running map and the reservation table unchanged. -/
theorem start_port_exclusivity :
    (∀ pf, Reachable pf → ∀ i j ri rj,
       lookupA i pf.RunningForwards = some ri →
       lookupA j pf.RunningForwards = some rj →
       i ≠ j → ri.localPort ≠ rj.localPort) ∧
    (∀ (pf : PortForwarder) (i j : Nat) (cfg : PortForwardConfig) (env : LaunchEnv),
       lookupA j pf.RunningForwards = none →
       lookupA cfg.PortLocal pf.activeLocalPorts = some i →
       i ≠ j →
       pf.Start j cfg env = (pf, some GoError.ErrLocalPortReserved, [])) := by
  constructor
  · intro pf hre i j ri rj hi hj hij he
    have hinv := reachable_inv hre
    have h1 := hinv i ri hi
    have h2 := hinv j rj hj
    rw [he] at h1
    rw [h1] at h2
    injection h2 with h3
    exact hij h3
  · intro pf i j cfg env hrun hres _
    exact Start_reserved env hrun hres

theorem start_port_exclusivity_witness :
    (lookupA 0 pfTwo.RunningForwards = some riA ∧
     lookupA 1 pfTwo.RunningForwards = some riB ∧
     riA.localPort ≠ riB.localPort) ∧
    (lookupA 1 pfOne.RunningForwards = none ∧
     lookupA cfgBsame.PortLocal pfOne.activeLocalPorts = some 0 ∧
     pfOne.Start 1 cfgBsame envOK2 = (pfOne, some GoError.ErrLocalPortReserved, [])) := by
  refine ⟨⟨by decide, by decide, ?_⟩, ⟨by decide, by decide, ?_⟩⟩
  · exact start_port_exclusivity.1 pfTwo
      (Reachable.start pfOne 1 cfgB envOK2
        (Reachable.start NewPortForwarder 0 cfgA envOK Reachable.init))
      0 1 riA riB (by decide) (by decide) (by decide)
  · exact start_port_exclusivity.2 pfOne 0 1 cfgBsame envOK2 (by decide) (by decide)
      (by decide)

/-- Claim C2: when the launch fails after the port was reserved, `Start`
returns the launch error unchanged, the slot is not in the running map, the
port reservation is released, and the whole state is as before the call (so
a subsequent probe or `Start` for the port is not blocked); the trace shows
reserve, the launch events, then release. -/
theorem start_failure_releases_reservation
    (pf : PortForwarder) (idx : Nat) (cfg : PortForwardConfig) (env : LaunchEnv)
    (e : GoError)
    (h1 : lookupA idx pf.RunningForwards = none)
    (h2 : lookupA cfg.PortLocal pf.activeLocalPorts = none)
    (hL : (StartPortForward env (paramsOf cfg)).1 = Except.error e) :
    pf.Start idx cfg env =
      (pf, some e,
       Event.reserve cfg.PortLocal idx ::
         (StartPortForward env (paramsOf cfg)).2 ++ [Event.release cfg.PortLocal idx]) ∧
    lookupA idx (pf.Start idx cfg env).1.RunningForwards = none ∧
    lookupA cfg.PortLocal (pf.Start idx cfg env).1.activeLocalPorts = none := by
  have heq := Start_launch_error h1 h2 hL
  refine ⟨heq, ?_, ?_⟩
  · rw [heq]; exact h1
  · rw [heq]; exact h2

theorem start_failure_releases_reservation_witness :
    (lookupA 0 NewPortForwarder.RunningForwards = none ∧
     lookupA cfgA.PortLocal NewPortForwarder.activeLocalPorts = none ∧
     (StartPortForward envListenFail (paramsOf cfgA)).1 =
       Except.error GoError.ErrPortInUse) ∧
    NewPortForwarder.Start 0 cfgA envListenFail =
      (NewPortForwarder, some GoError.ErrPortInUse,
       [Event.reserve 8080 0, Event.release 8080 0]) := by
  refine ⟨⟨rfl, rfl, rfl⟩, ?_⟩
  have h := start_failure_releases_reservation NewPortForwarder 0 cfgA envListenFail
    GoError.ErrPortInUse rfl rfl rfl
  exact h.1.trans (by decide)

/-- Claim C3: for a running slot, `Stop` releases the port reservation before
the kill is attempted (the trace is exactly release followed by kill),
removes the slot from the running map whatever the kill returns, returns the
kill error, and leaves `IsRunning` false. -/
theorem stop_releases_before_kill
    (pf : PortForwarder) (idx : Nat) (ri : runningInfo)
    (h : lookupA idx pf.RunningForwards = some ri)
    (h2 : lookupA ri.localPort pf.activeLocalPorts = some idx)
    (h3 : ri.cmd.processNil = false) :
    pf.Stop idx =
      ({ RunningForwards := eraseA idx pf.RunningForwards,
         activeLocalPorts := eraseA ri.localPort pf.activeLocalPorts },
       ri.cmd.killErr,
       [Event.release ri.localPort idx, Event.kill ri.cmd.pid]) ∧
    (pf.Stop idx).1.IsRunning idx = false := by
  have hkill : StopPortForward (some ri.cmd) = (ri.cmd.killErr, [Event.kill ri.cmd.pid]) := by
    simp [StopPortForward, h3]
  have heq := Stop_running_held h h2
  rw [hkill] at heq
  refine ⟨heq, ?_⟩
  rw [heq]
  simp [PortForwarder.IsRunning, lookupA_eraseA_self]

theorem stop_releases_before_kill_witness :
    (lookupA 0 pfKill.RunningForwards = some riKill ∧
     lookupA riKill.localPort pfKill.activeLocalPorts = some 0 ∧
     riKill.cmd.processNil = false) ∧
    pfKill.Stop 0 =
      ({ RunningForwards := [], activeLocalPorts := [] },
       some (GoError.errorf ("kill failed")),
       [Event.release 8080 0, Event.kill 9]) ∧
    (pfKill.Stop 0).1.IsRunning 0 = false := by
  have h := stop_releases_before_kill pfKill 0 riKill (by decide) (by decide) (by decide)
  exact ⟨⟨by decide, by decide, by decide⟩, h.1.trans (by decide), h.2⟩

/-- Claim C4: `Start` on an already-running slot returns success and changes
nothing, and `Stop` on a slot with no running tunnel returns success and
changes nothing. -/
theorem start_stop_idempotent :
    (∀ (pf : PortForwarder) (idx : Nat) (cfg : PortForwardConfig) (env : LaunchEnv)
       (ri : runningInfo),
       lookupA idx pf.RunningForwards = some ri →
       pf.Start idx cfg env = (pf, none, [])) ∧
    (∀ (pf : PortForwarder) (idx : Nat),
       lookupA idx pf.RunningForwards = none →
       pf.Stop idx = (pf, none, [])) :=
  ⟨fun _ _ cfg env _ h => Start_already_running cfg env h,
   fun _ _ h => Stop_not_running h⟩

theorem start_stop_idempotent_witness :
    (lookupA 0 pfOne.RunningForwards = some riA ∧
     pfOne.Start 0 cfgA envOK2 = (pfOne, none, [])) ∧
    (lookupA 1 pfOne.RunningForwards = none ∧
     pfOne.Stop 1 = (pfOne, none, [])) :=
  ⟨⟨by decide, start_stop_idempotent.1 pfOne 0 cfgA envOK2 riA (by decide)⟩,
   ⟨by decide, start_stop_idempotent.2 pfOne 1 (by decide)⟩⟩

theorem reloadStep_identical (X : List PortForwardConfig) (pf : PortForwarder)
    (res : ReloadResult) (i : Nat) :
    reloadStep pf res (X.get? i) (X.get? i) i = (pf, res) := by
  cases hx : X.get? i with
  | none => rfl
  | some x => simp [reloadStep, configParamsChanged_self]

/-- Claim C5: reconciling a definition list against itself produces an empty
result (no stops, starts, updates or errors) and leaves the running map and
the reservation table exactly as they were, for every current state. -/
theorem reconcile_identical_noop (pf : PortForwarder) (X : List PortForwardConfig) :
    pf.ReloadSync X X =
      (pf, { Stopped := [], Started := [], Updated := [], Errors := [] }) := by
  unfold PortForwarder.ReloadSync
  have haux : ∀ (l : List Nat) (acc : PortForwarder × ReloadResult),
      l.foldl (fun acc i => reloadStep acc.1 acc.2 (X.get? i) (X.get? i) i) acc = acc := by
    intro l
    induction l with
    | nil => intro acc; rfl
    | cons x xs ih =>
      intro acc
      rw [List.foldl_cons, reloadStep_identical]
      exact ih acc
  exact haux _ _

/-- Claim C6: `ReloadSync` walks both lists positionally up to the length of
the longer list; at each position, when both entries exist and any of the six
core fields differs, a running slot is stopped (recorded in `Stopped` when
the stop succeeds) and the position is always recorded in `Updated` and never
auto-started; when both exist with all six fields equal, nothing happens;
when only the old entry exists, a running slot is stopped and recorded in
`Stopped`; when only the new entry exists, nothing happens and the slot
stays not running. -/
theorem reconcile_positional_walk :
    (∀ (pf : PortForwarder) (oldC newC : List PortForwardConfig),
       pf.ReloadSync oldC newC =
         (List.range (max oldC.length newC.length)).foldl
           (fun acc i => reloadStep acc.1 acc.2 (oldC.get? i) (newC.get? i) i)
           (pf, { Stopped := [], Started := [], Updated := [], Errors := [] })) ∧
    (∀ o n : PortForwardConfig, configParamsChanged o n = true ↔
       (o.Context ≠ n.Context ∨ o.Namespace ≠ n.Namespace ∨ o.Service ≠ n.Service ∨
        o.PortRemote ≠ n.PortRemote ∨ o.PortLocal ≠ n.PortLocal ∨ o.ID ≠ n.ID)) ∧
    (∀ (pf : PortForwarder) (res : ReloadResult) (o n : PortForwardConfig) (i : Nat),
       configParamsChanged o n = true →
       (lookupA i pf.RunningForwards).isSome = true →
       (pf.stopInternal i).2.1 = none →
       reloadStep pf res (some o) (some n) i =
         ((pf.stopInternal i).1,
          { res with Stopped := res.Stopped ++ [i], Updated := res.Updated ++ [i] })) ∧
    (∀ (pf : PortForwarder) (res : ReloadResult) (o n : PortForwardConfig) (i : Nat),
       configParamsChanged o n = true →
       lookupA i pf.RunningForwards = none →
       reloadStep pf res (some o) (some n) i =
         (pf, { res with Updated := res.Updated ++ [i] })) ∧
    (∀ (pf : PortForwarder) (res : ReloadResult) (o n : PortForwardConfig) (i : Nat),
       configParamsChanged o n = false →
       reloadStep pf res (some o) (some n) i = (pf, res)) ∧
    (∀ (pf : PortForwarder) (res : ReloadResult) (o : PortForwardConfig) (i : Nat),
       (lookupA i pf.RunningForwards).isSome = true →
       (pf.stopInternal i).2.1 = none →
       reloadStep pf res (some o) none i =
         ((pf.stopInternal i).1, { res with Stopped := res.Stopped ++ [i] })) ∧
    (∀ (pf : PortForwarder) (res : ReloadResult) (o : PortForwardConfig) (i : Nat),
       lookupA i pf.RunningForwards = none →
       reloadStep pf res (some o) none i = (pf, res)) ∧
    (∀ (pf : PortForwarder) (res : ReloadResult) (n : PortForwardConfig) (i : Nat),
       reloadStep pf res none (some n) i = (pf, res)) ∧
    (∀ (pf : PortForwarder) (i : Nat), (pf.stopInternal i).1.IsRunning i = false) := by
  refine ⟨?_, ?_, ?_, ?_, ?_, ?_, ?_, fun pf res n i => rfl,
    stopInternal_IsRunning⟩
  · intro pf oldC newC
    rfl
  · intro o n
    simp only [configParamsChanged, Bool.or_eq_true, bne_iff_ne]
    tauto
  · intro pf res o n i hch hrun hstop
    simp [reloadStep, hch, hrun, hstop]
  · intro pf res o n i hch hrun
    simp [reloadStep, hch, hrun]
  · intro pf res o n i hch
    simp [reloadStep, hch]
  · intro pf res o i hrun hstop
    simp [reloadStep, hrun, hstop]
  · intro pf res o i hrun
    simp [reloadStep, hrun]

theorem reconcile_positional_walk_witness :
    (configParamsChanged cfgA cfgAsvc2 = true ∧
     (lookupA 0 pfOne.RunningForwards).isSome = true ∧
     (pfOne.stopInternal 0).2.1 = none ∧
     reloadStep pfOne emptyReload (some cfgA) (some cfgAsvc2) 0 =
       ((pfOne.stopInternal 0).1, { emptyReload with Stopped := [0], Updated := [0] })) ∧
    (lookupA 1 pfOne.RunningForwards = none ∧
     reloadStep pfOne emptyReload (some cfgA) (some cfgAsvc2) 1 =
       (pfOne, { emptyReload with Updated := [1] })) ∧
    (configParamsChanged cfgA cfgA = false ∧
     reloadStep pfOne emptyReload (some cfgA) (some cfgA) 0 = (pfOne, emptyReload)) ∧
    reloadStep pfOne emptyReload (some cfgA) none 0 =
      ((pfOne.stopInternal 0).1, { emptyReload with Stopped := [0] }) ∧
    reloadStep pfOne emptyReload (some cfgA) none 1 = (pfOne, emptyReload) ∧
    reloadStep pfOne emptyReload none (some cfgB) 5 = (pfOne, emptyReload) ∧
    (pfOne.stopInternal 0).1.IsRunning 0 = false := by
  refine ⟨⟨by decide, by decide, by decide, ?_⟩, ⟨by decide, ?_⟩, ⟨by decide, ?_⟩,
    ?_, ?_, ?_, ?_⟩
  · exact reconcile_positional_walk.2.2.1 pfOne emptyReload cfgA cfgAsvc2 0
      (by decide) (by decide) (by decide)
  · exact reconcile_positional_walk.2.2.2.1 pfOne emptyReload cfgA cfgAsvc2 1
      (by decide) (by decide)
  · exact reconcile_positional_walk.2.2.2.2.1 pfOne emptyReload cfgA cfgA 0
      (configParamsChanged_self cfgA)
  · exact reconcile_positional_walk.2.2.2.2.2.1 pfOne emptyReload cfgA 0
      (by decide) (by decide)
  · exact reconcile_positional_walk.2.2.2.2.2.2.1 pfOne emptyReload cfgA 1 (by decide)
  · exact reconcile_positional_walk.2.2.2.2.2.2.2.1 pfOne emptyReload cfgB 5
  · exact reconcile_positional_walk.2.2.2.2.2.2.2.2 pfOne 0

/-- Claim C7: after `CleanupAll` the running map and the reservation table
are both empty, `IsRunning` is false for every slot, and a subsequent `Start`
for any slot behaves exactly as a `Start` from a freshly created supervisor;
this holds for every prior state, in particular whatever every process's
kill would have returned (dead processes included). -/
theorem cleanupAll_resets (pf : PortForwarder) :
    pf.CleanupAll.1 = NewPortForwarder ∧
    pf.CleanupAll.1.RunningForwards = [] ∧
    pf.CleanupAll.1.activeLocalPorts = [] ∧
    (∀ idx, pf.CleanupAll.1.IsRunning idx = false) ∧
    (∀ idx cfg env, pf.CleanupAll.1.Start idx cfg env = NewPortForwarder.Start idx cfg env) :=
  ⟨rfl, rfl, rfl, fun _ => rfl, fun _ _ _ => rfl⟩

/-- Claim C8: when the loopback listen probe fails (any listen error makes
the probe return false), the launcher fails with the `ErrPortInUse` sentinel
and an empty event trace — no forwarding process is spawned — and this
sentinel is distinct from the `ErrLocalPortReserved` sentinel used for
internal reservation conflicts. -/
theorem probe_failure_port_in_use (env : LaunchEnv) (params : PortForwardParams)
    (msg : String) (h : env.listenErr params.PortLocal = some msg) :
    isPortAvailable env.listenErr params.PortLocal = false ∧
    StartPortForward env params = (Except.error GoError.ErrPortInUse, []) ∧
    GoError.ErrPortInUse ≠ GoError.ErrLocalPortReserved := by
  have hav : isPortAvailable env.listenErr params.PortLocal = false := by
    unfold isPortAvailable; rw [h]
  refine ⟨hav, ?_, by decide⟩
  simp [StartPortForward, hav]

theorem probe_failure_port_in_use_witness :
    envListenFail.listenErr (paramsOf cfgA).PortLocal = some ("address already in use") ∧
    StartPortForward envListenFail (paramsOf cfgA) =
      (Except.error GoError.ErrPortInUse, []) :=
  ⟨rfl, (probe_failure_port_in_use envListenFail (paramsOf cfgA)
    ("address already in use") rfl).2.1⟩

/-- Claim C9, counterexample: the error produced when the process exits
immediately is not distinguishable from the error produced for early
error-stream output — two different environments (one where the process
exited at once, one where it kept running but wrote to stderr) yield the
very same error value. -/
theorem exited_quickly_error_collision :
    envExitQuick.exitedQuickly = true ∧
    envEarlyStderr.exitedQuickly = false ∧
    envEarlyStderr.stderrEarly ≠ "" ∧
    (StartPortForward envExitQuick (paramsOf cfgA)).1 =
      Except.error (GoError.errorf ("kubectl exited quickly. Stderr: x")) ∧
    (StartPortForward envEarlyStderr (paramsOf cfgA)).1 =
      Except.error (GoError.errorf ("kubectl exited quickly. Stderr: x")) := by
  refine ⟨rfl, rfl, by decide, by decide, by decide⟩

/-- Claim C9, amended: when the spawn succeeds but the immediate
non-blocking check finds the process already exited, the launcher fails with
a plain formatted error whose message embeds the captured error-stream text
after the fixed prefix "kubectl exited quickly. Stderr: "; this error is
distinguishable from the wrapped errors used for spawn failures, but it is
not a dedicated sentinel and can coincide with the error produced for early
error-stream output. -/
theorem exited_quickly_error_classification (env : LaunchEnv)
    (params : PortForwardParams)
    (h1 : isPortAvailable env.listenErr params.PortLocal = true)
    (h2 : env.startErr = none) (h3 : env.exitedQuickly = true) :
    (StartPortForward env params).1 =
      Except.error (GoError.errorf ("kubectl exited quickly. Stderr: " ++ env.stderrOnExit)) ∧
    (∀ msg inner,
       GoError.errorf ("kubectl exited quickly. Stderr: " ++ env.stderrOnExit) ≠
         GoError.wrapped msg inner) := by
  constructor
  · simp [StartPortForward, h1, h2, h3]
  · intro msg inner hcontra
    exact GoError.noConfusion hcontra

theorem exited_quickly_error_classification_witness :
    (isPortAvailable envExitQuick.listenErr (paramsOf cfgA).PortLocal = true ∧
     envExitQuick.startErr = none ∧ envExitQuick.exitedQuickly = true) ∧
    (StartPortForward envExitQuick (paramsOf cfgA)).1 =
      Except.error (GoError.errorf ("kubectl exited quickly. Stderr: x")) := by
  refine ⟨⟨rfl, rfl, rfl⟩, ?_⟩
  exact (exited_quickly_error_classification envExitQuick (paramsOf cfgA)
    rfl rfl rfl).1.trans (by decide)

/-- Claim C10: when stopping a running slot during reconciliation fails, the
slot is still removed from the running map and its port reservation is
released; the failure is recorded in `Errors` (and the slot in `Updated`
when its parameters changed) but not in `Stopped`, and `IsRunning` is false
afterwards. -/
theorem reconcile_stop_failure_bookkeeping
    (pf : PortForwarder) (res : ReloadResult) (o n : PortForwardConfig) (i : Nat)
    (ri : runningInfo) (e : GoError)
    (h : lookupA i pf.RunningForwards = some ri)
    (hheld : lookupA ri.localPort pf.activeLocalPorts = some i)
    (hnil : ri.cmd.processNil = false)
    (hkill : ri.cmd.killErr = some e)
    (hch : configParamsChanged o n = true) :
    reloadStep pf res (some o) (some n) i =
      ((pf.stopInternal i).1,
       { res with
           Errors := insertA i (GoError.wrapped ("failed to stop changed config") e) res.Errors,
           Updated := res.Updated ++ [i] }) ∧
    reloadStep pf res (some o) none i =
      ((pf.stopInternal i).1,
       { res with
           Errors := insertA i (GoError.wrapped ("failed to stop removed config") e) res.Errors }) ∧
    (pf.stopInternal i).1 =
      { RunningForwards := eraseA i pf.RunningForwards,
        activeLocalPorts := eraseA ri.localPort pf.activeLocalPorts } ∧
    lookupA i (pf.stopInternal i).1.RunningForwards = none ∧
    lookupA ri.localPort (pf.stopInternal i).1.activeLocalPorts = none ∧
    (pf.stopInternal i).1.IsRunning i = false := by
  have hstate := stopInternal_running_held h hheld
  have hserr : (pf.stopInternal i).2.1 = some e := by
    rw [hstate]
    simp [StopPortForward, hnil, hkill]
  refine ⟨?_, ?_, ?_, ?_, ?_, stopInternal_IsRunning pf i⟩
  · simp [reloadStep, hch, h, hserr]
  · simp [reloadStep, h, hserr]
  · rw [hstate]
  · rw [hstate]
    exact lookupA_eraseA_self i pf.RunningForwards
  · rw [hstate]
    exact lookupA_eraseA_self ri.localPort pf.activeLocalPorts

theorem reconcile_stop_failure_bookkeeping_witness :
    (lookupA 0 pfKill.RunningForwards = some riKill ∧
     lookupA riKill.localPort pfKill.activeLocalPorts = some 0 ∧
     riKill.cmd.processNil = false ∧
     riKill.cmd.killErr = some (GoError.errorf ("kill failed")) ∧
     configParamsChanged cfgA cfgAsvc2 = true) ∧
    reloadStep pfKill emptyReload (some cfgA) (some cfgAsvc2) 0 =
      ((pfKill.stopInternal 0).1,
       { emptyReload with
           Errors := [(0, GoError.wrapped ("failed to stop changed config")
             (GoError.errorf ("kill failed")))],
           Updated := [0] }) ∧
    (pfKill.stopInternal 0).1.IsRunning 0 = false := by
  have h := reconcile_stop_failure_bookkeeping pfKill emptyReload cfgA cfgAsvc2 0
    riKill (GoError.errorf ("kill failed")) (by decide) (by decide) (by decide)
    (by decide) (by decide)
  exact ⟨⟨by decide, by decide, by decide, by decide, by decide⟩,
    h.1.trans (by decide), h.2.2.2.2.2⟩

end Kprtfwd
